import Mathlib

/-!
Shallow embedding of the WhatsApp automation manager
(`src/utils/whatsappManager.js`) and the database helper module
(`src/unnamed/part_001`), together with proofs about the claims of the
specification: webhook fan-out and failure isolation, the ingestion
pipeline, the outbound send path, phone-number normalization, startup
reconnection, and the message statistics aggregation.

External effects (the transport library, HTTP posts, the persistent
store) are modelled as explicit oracles passed to each function, and
log writes are modelled as the list of entries appended by a call.
-/

namespace WhatsAppAutomation

/-! ## Data model -/

/-- The `direction` field of a message log entry. -/
inductive Direction
  | incoming
  | outgoing
  | webhook
  | webhook_incoming
deriving DecidableEq

/-- The `status` field of a message log entry, when present. -/
inductive MsgStatus
  | success
  | failed
deriving DecidableEq

/-- Media payload attached to a message (`message.downloadMedia()`). -/
structure Media where
  mimetype : String
  data : String
  filename : Option String
deriving DecidableEq

/-- A webhook record as stored in the `webhooks` table. -/
structure Webhook where
  id : String
  account_id : String
  url : String
  secret : Option String
  is_active : Bool
deriving DecidableEq

/-- A row of the `message_logs` table.  Fields that JavaScript leaves
`undefined` on some paths are `Option`s defaulting to `none`; in
particular a successfully ingested incoming message carries no
`status` field at all. -/
structure MessageLogEntry where
  account_id : String
  direction : Direction
  status : Option MsgStatus := none
  message_id : Option String := none
  sender : Option String := none
  recipient : Option String := none
  message : Option String := none
  timestamp : Option Nat := none
  type : Option String := none
  chat_id : Option String := none
  is_group : Option Bool := none
  group_name : Option String := none
  media : Option Media := none
  webhook_id : Option String := none
  webhook_url : Option String := none
  response_status : Option Nat := none
  error_message : Option String := none
deriving DecidableEq

/-! ## Phone number normalization (`formatPhoneNumber`) -/

/-- The character class kept by `number.replace(/[^\d+]/g, '')`:
digits and the plus sign (every occurrence, not only a leading one). -/
def keepChar (c : Char) : Bool :=
  c.isDigit || c == '+'

/-- `formatPhoneNumber(number)`: strip every character that is not a
digit or a plus sign; if the result does not start with `'+'`, prepend
the default country code `+91`; append the `@c.us` suffix. -/
def formatPhoneNumber (number : String) : String :=
  let cleaned := number.data.filter keepChar
  let cleaned := if cleaned.head? = some '+' then cleaned
                 else '+' :: '9' :: '1' :: cleaned
  String.mk (cleaned ++ "@c.us".data)

/-- Modelled from the spec, as amended: strip every character that is
not a digit or a plus sign, keeping every surviving plus sign in its
place; if the stripped string does not begin with a plus sign, prepend
the default country code `+91`; append the transport suffix `@c.us`. -/
def specNormalizeAmended (number : String) : String :=
  let stripped := number.data.filter keepChar
  if stripped.head? = some '+' then String.mk (stripped ++ "@c.us".data)
  else String.mk ('+' :: '9' :: '1' :: (stripped ++ "@c.us".data))

lemma filter_keepChar_idem (l : List Char) :
    (l.filter keepChar).filter keepChar = l.filter keepChar := by
  induction l with
  | nil => rfl
  | cons c rest ih =>
    by_cases h : keepChar c = true
    · simp [List.filter, h, ih]
    · simp [List.filter, h, ih]

lemma filter_keepChar_suffix :
    (['@', 'c', '.', 'u', 's'] : List Char).filter keepChar = [] := by
  decide

lemma mk_data (l : List Char) : (String.mk l).data = l := rfl

/-- The cleaned-and-prefixed part of a formatted number always starts
with a plus sign. -/
lemma formatPhoneNumber_core_head (l : List Char) :
    (if (l.filter keepChar).head? = some '+' then l.filter keepChar
     else '+' :: '9' :: '1' :: l.filter keepChar).head? = some '+' := by
  by_cases h : (l.filter keepChar).head? = some '+'
  · rw [if_pos h]; exact h
  · rw [if_neg h]; rfl

lemma keepChar_plus : keepChar '+' = true := rfl

lemma keepChar_nine : keepChar '9' = true := rfl

lemma keepChar_one : keepChar '1' = true := rfl

/-- Filtering an already-cleaned core (with its possible `+91` prefix)
is the identity. -/
lemma filter_keepChar_core (l : List Char) :
    (('+' :: '9' :: '1' :: l.filter keepChar) ++ ['@', 'c', '.', 'u', 's']).filter keepChar
      = '+' :: '9' :: '1' :: l.filter keepChar := by
  rw [List.filter_append, filter_keepChar_suffix, List.append_nil,
    List.filter_cons_of_pos keepChar_plus, List.filter_cons_of_pos keepChar_nine,
    List.filter_cons_of_pos keepChar_one, filter_keepChar_idem]

lemma filter_keepChar_core_bare (l : List Char) :
    ((l.filter keepChar) ++ ['@', 'c', '.', 'u', 's']).filter keepChar
      = l.filter keepChar := by
  rw [List.filter_append, filter_keepChar_suffix, List.append_nil, filter_keepChar_idem]

/-- C4: `formatPhoneNumber` is idempotent. -/
theorem formatPhoneNumber_idem (x : String) :
    formatPhoneNumber (formatPhoneNumber x) = formatPhoneNumber x := by
  simp only [formatPhoneNumber]
  by_cases h : (x.data.filter keepChar).head? = some '+'
  · rw [if_pos h]
    rw [filter_keepChar_core_bare, if_pos h]
  · rw [if_neg h]
    rw [filter_keepChar_core]
    rw [if_pos (show ('+' :: '9' :: '1' :: x.data.filter keepChar).head? = some '+' from rfl)]

/-- C5 counterexample: on input `"1+2"` the interior plus sign
survives normalization, so the digits-and-plus portion of the result
contains a `'+'` after its first character, contradicting the claim
that a `'+'` is kept only in the leading position. -/
theorem formatPhoneNumber_interior_plus_cex :
    formatPhoneNumber "1+2" = "+911+2@c.us"
      ∧ '+' ∈ (formatPhoneNumber "1+2").data.drop 1 := by
  constructor
  · rfl
  · decide

/-- C5 (amended): `formatPhoneNumber` strips every character that is
not a digit or a plus sign, keeping every surviving plus sign in its
place (not only a leading one); if the stripped string does not begin
with a plus sign the default country code `+91` is prepended; the
`@c.us` suffix is appended. -/
theorem formatPhoneNumber_amended (x : String) :
    formatPhoneNumber x = specNormalizeAmended x := by
  simp only [formatPhoneNumber, specNormalizeAmended]
  by_cases h : (x.data.filter keepChar).head? = some '+'
  · rw [if_pos h, if_pos h]
  · rw [if_neg h, if_neg h]
    rfl

/-! ## Webhook dispatcher (`sendToWebhooks`) -/

/-- Outcome of one HTTP POST delivery attempt to a webhook: either a
response (with its HTTP status) or an error (timeout, network error,
or a non-2xx rejection surfaced by the HTTP client). -/
inductive DeliveryResult
  | ok (responseStatus : Nat)
  | err (message : String)
deriving DecidableEq

/-- The delivery-outcome log entry written for one webhook: on success
a `direction=webhook, status=success` entry with the response status,
on failure a `direction=webhook, status=failed` entry with the error
message; both carry the webhook's id and url. -/
def webhookEntry (accountId : String) (w : Webhook) : DeliveryResult → MessageLogEntry
  | .ok s =>
    { account_id := accountId, direction := .webhook, status := some .success,
      webhook_id := some w.id, webhook_url := some w.url, response_status := some s }
  | .err m =>
    { account_id := accountId, direction := .webhook, status := some .failed,
      webhook_id := some w.id, webhook_url := some w.url, error_message := some m }

/-- `sendToWebhooks(accountId, messageData)`: loop over the account's
webhooks, skip the inactive ones (`if (!webhook.is_active) continue`),
attempt delivery to each active one, and log each attempt's outcome.
The per-webhook delivery outcome is abstracted by the oracle
`deliver`; the function returns the list of delivery-outcome log
entries written, in loop order. -/
def sendToWebhooks (accountId : String) (webhooks : List Webhook)
    (deliver : Webhook → DeliveryResult) : List MessageLogEntry :=
  match webhooks with
  | [] => []
  | w :: rest =>
    if w.is_active then
      webhookEntry accountId w (deliver w) :: sendToWebhooks accountId rest deliver
    else
      sendToWebhooks accountId rest deliver

/-! ## Ingestion pipeline (`handleIncomingMessage`) -/

/-- The chat metadata obtained from `message.getChat()`. -/
structure Chat where
  id : String
  isGroup : Bool
  name : String
deriving DecidableEq

/-- An inbound transport message event. -/
structure MsgEvent where
  message_id : String
  sender : String
  recipient : String
  body : String
  timestamp : Nat
  type : String
  hasMedia : Bool
deriving DecidableEq

/-- The incoming-message log entry assembled by `handleIncomingMessage`
on the success path.  Note that it carries no `status` field. -/
def incomingEntry (accountId : String) (msg : MsgEvent) (chat : Chat)
    (media : Option Media) : MessageLogEntry :=
  { account_id := accountId, direction := .incoming,
    message_id := some msg.message_id, sender := some msg.sender,
    recipient := some msg.recipient, message := some msg.body,
    timestamp := some msg.timestamp, type := some msg.type,
    chat_id := some chat.id, is_group := some chat.isGroup,
    group_name := if chat.isGroup then some chat.name else none,
    media := media }

/-- The error log entry attempted by the `catch` branch of
`handleIncomingMessage`. -/
def failedIncoming (accountId errMessage : String) : MessageLogEntry :=
  { account_id := accountId, direction := .incoming,
    status := some .failed, error_message := some errMessage }

/-- `handleIncomingMessage(client, accountId, message)`: normalize the
event into an incoming log entry (`getChat`, then `downloadMedia` when
the message has media), persist it, and only then dispatch it to the
account's webhooks.  If any of these steps fails, the `catch` branch
attempts to log a `status=failed` entry instead and dispatch is never
invoked.  The fallible collaborator calls are abstracted by `Except`
oracles.  Returns the list of log entries the call attempts to write
together with whether webhook dispatch was invoked. -/
def handleIncomingMessage (accountId : String) (msg : MsgEvent)
    (getChat : Except String Chat) (downloadMedia : Except String Media)
    (persistIncoming : Except String Unit)
    (webhooks : List Webhook) (deliver : Webhook → DeliveryResult) :
    List MessageLogEntry × Bool :=
  match getChat with
  | .error e => ([failedIncoming accountId e], false)
  | .ok chat =>
    match (if msg.hasMedia then downloadMedia.map some else .ok none) with
    | .error e => ([failedIncoming accountId e], false)
    | .ok media =>
      match persistIncoming with
      | .error e => ([failedIncoming accountId e], false)
      | .ok _ =>
        (incomingEntry accountId msg chat media
           :: sendToWebhooks accountId webhooks deliver, true)

/-! ## Message statistics (`getMessageStats`) -/

/-- The aggregate returned by `db.getMessageStats(accountId)`. -/
structure MessageStats where
  total : Nat
  incoming : Nat
  outgoing : Nat
  success : Nat
  failed : Nat
deriving DecidableEq

/-- `getMessageStats`: count all of the account's log entries, those
with each direction of interest, and those with each status. -/
def getMessageStats (logs : List MessageLogEntry) : MessageStats :=
  { total := logs.length
  , incoming := (logs.filter (fun m => m.direction == Direction.incoming)).length
  , outgoing := (logs.filter (fun m => m.direction == Direction.outgoing)).length
  , success := (logs.filter (fun m => m.status == some MsgStatus.success)).length
  , failed := (logs.filter (fun m => m.status == some MsgStatus.failed)).length }

/-! ## Lemmas about the dispatcher and the pipeline -/

lemma webhookEntry_direction (acc : String) (w : Webhook) (r : DeliveryResult) :
    (webhookEntry acc w r).direction = Direction.webhook := by
  cases r <;> rfl

lemma webhookEntry_id (acc : String) (w : Webhook) (r : DeliveryResult) :
    (webhookEntry acc w r).webhook_id = some w.id := by
  cases r <;> rfl

lemma webhookEntry_url (acc : String) (w : Webhook) (r : DeliveryResult) :
    (webhookEntry acc w r).webhook_url = some w.url := by
  cases r <;> rfl

lemma webhookEntry_status (acc : String) (w : Webhook) (r : DeliveryResult) :
    (webhookEntry acc w r).status = some MsgStatus.success
      ∨ (webhookEntry acc w r).status = some MsgStatus.failed := by
  cases r
  · exact Or.inl rfl
  · exact Or.inr rfl

/-- The dispatcher writes exactly one entry per active webhook, in
order. -/
lemma sendToWebhooks_eq_map (acc : String) (webhooks : List Webhook)
    (deliver : Webhook → DeliveryResult) :
    sendToWebhooks acc webhooks deliver
      = (webhooks.filter (fun w => w.is_active)).map
          (fun w => webhookEntry acc w (deliver w)) := by
  induction webhooks with
  | nil => rfl
  | cons w rest ih =>
    by_cases h : w.is_active
    · simp [sendToWebhooks, h, ih]
    · simp [sendToWebhooks, h, ih]

lemma mem_sendToWebhooks {acc : String} {webhooks : List Webhook}
    {deliver : Webhook → DeliveryResult} {e : MessageLogEntry}
    (he : e ∈ sendToWebhooks acc webhooks deliver) :
    ∃ w, w ∈ webhooks ∧ w.is_active = true ∧ e = webhookEntry acc w (deliver w) := by
  rw [sendToWebhooks_eq_map] at he
  obtain ⟨w, hw, rfl⟩ := List.mem_map.mp he
  exact ⟨w, (List.mem_filter.mp hw).1, (List.mem_filter.mp hw).2, rfl⟩

/-- On the fully successful path, the pipeline writes the incoming
entry followed by the dispatcher's entries, and dispatch is invoked. -/
lemma handleIncomingMessage_ok (acc : String) (msg : MsgEvent) (chat : Chat)
    (m : Media) (webhooks : List Webhook) (deliver : Webhook → DeliveryResult) :
    handleIncomingMessage acc msg (.ok chat) (.ok m) (.ok ()) webhooks deliver
      = (incomingEntry acc msg chat (if msg.hasMedia then some m else none)
           :: sendToWebhooks acc webhooks deliver, true) := by
  cases hm : msg.hasMedia <;> simp [handleIncomingMessage, hm, Except.map]

lemma incomingEntry_status (acc : String) (msg : MsgEvent) (chat : Chat)
    (media : Option Media) : (incomingEntry acc msg chat media).status = none := rfl

lemma incomingEntry_direction (acc : String) (msg : MsgEvent) (chat : Chat)
    (media : Option Media) :
    (incomingEntry acc msg chat media).direction = Direction.incoming := rfl

lemma incomingEntry_webhook_id (acc : String) (msg : MsgEvent) (chat : Chat)
    (media : Option Media) : (incomingEntry acc msg chat media).webhook_id = none := rfl

/-- Changing the delivery results of webhooks other than those with a
fixed id leaves the dispatcher's output for every other id unchanged. -/
lemma sendToWebhooks_filter_congr (acc : String) (webhooks : List Webhook)
    (d1 d2 : Webhook → DeliveryResult) (wid j : String)
    (h : ∀ w ∈ webhooks, w.id ≠ wid → d1 w = d2 w) (hj : j ≠ wid) :
    (sendToWebhooks acc webhooks d1).filter (fun e => e.webhook_id == some j)
      = (sendToWebhooks acc webhooks d2).filter (fun e => e.webhook_id == some j) := by
  induction webhooks with
  | nil => rfl
  | cons w rest ih =>
    have hrest : ∀ w' ∈ rest, w'.id ≠ wid → d1 w' = d2 w' :=
      fun w' hw' => h w' (List.mem_cons_of_mem w hw')
    simp only [sendToWebhooks]
    by_cases ha : w.is_active
    · rw [if_pos ha, if_pos ha]
      by_cases hid : w.id = wid
      · have hwj : w.id ≠ j := fun he => hj (by rw [← he, hid])
        have hbe : ∀ r : DeliveryResult,
            ((webhookEntry acc w r).webhook_id == some j) = false := by
          intro r
          rw [webhookEntry_id]
          simp [hwj]
        rw [List.filter_cons, List.filter_cons, hbe (d1 w), hbe (d2 w),
          if_neg (show ¬ (false = true) by decide),
          if_neg (show ¬ (false = true) by decide)]
        exact ih hrest
      · rw [h w (List.mem_cons_self w rest) hid, List.filter_cons, List.filter_cons,
          ih hrest]
    · rw [if_neg ha, if_neg ha]
      exact ih hrest

/-! ## C1: failure isolation across webhook subscribers -/

/-- C1: for an inbound message dispatched to an account's webhooks,
the delivery-outcome entries recorded for a webhook are unchanged when
the delivery results of the other webhooks change, and the original
incoming-message log entry (the first entry the pipeline writes) is
unchanged as well. -/
theorem webhook_failure_isolation (acc : String) (msg : MsgEvent)
    (getChat : Except String Chat) (downloadMedia : Except String Media)
    (persistIncoming : Except String Unit) (webhooks : List Webhook)
    (d1 d2 : Webhook → DeliveryResult) (wid : String)
    (h : ∀ w ∈ webhooks, w.id ≠ wid → d1 w = d2 w) :
    (∀ j, j ≠ wid →
      (sendToWebhooks acc webhooks d1).filter (fun e => e.webhook_id == some j)
        = (sendToWebhooks acc webhooks d2).filter (fun e => e.webhook_id == some j))
    ∧ (handleIncomingMessage acc msg getChat downloadMedia persistIncoming
         webhooks d1).1.head?
        = (handleIncomingMessage acc msg getChat downloadMedia persistIncoming
             webhooks d2).1.head? := by
  constructor
  · intro j hj
    exact sendToWebhooks_filter_congr acc webhooks d1 d2 wid j h hj
  · simp only [handleIncomingMessage]
    cases getChat with
    | error e => rfl
    | ok chat =>
      cases hmm : (if msg.hasMedia then downloadMedia.map some
          else Except.ok (none : Option Media)) with
      | error e => rfl
      | ok media =>
        cases persistIncoming with
        | error e => rfl
        | ok u => rfl

/-- C1 witness: two webhooks, one run where both deliveries succeed
and one where the second webhook times out; the entries recorded for
the first webhook coincide. -/
theorem webhook_failure_isolation_witness :
    (sendToWebhooks "a"
        [⟨"w1", "a", "https://one.test", none, true⟩,
         ⟨"w2", "a", "https://two.test", none, true⟩]
        (fun _ => DeliveryResult.ok 200)).filter (fun e => e.webhook_id == some "w1")
      = (sendToWebhooks "a"
        [⟨"w1", "a", "https://one.test", none, true⟩,
         ⟨"w2", "a", "https://two.test", none, true⟩]
        (fun w => if w.id = "w2" then DeliveryResult.err "timeout"
                  else DeliveryResult.ok 200)).filter
          (fun e => e.webhook_id == some "w1") :=
  (webhook_failure_isolation "a" ⟨"m1", "s", "r", "hi", 5, "chat", false⟩
    (.ok ⟨"c1", false, ""⟩) (.ok ⟨"image/png", "x", none⟩) (.ok ())
    [⟨"w1", "a", "https://one.test", none, true⟩,
     ⟨"w2", "a", "https://two.test", none, true⟩]
    (fun _ => DeliveryResult.ok 200)
    (fun w => if w.id = "w2" then DeliveryResult.err "timeout"
              else DeliveryResult.ok 200)
    "w2" (by decide)).1 "w1" (by decide)

/-! ## C2: exactly one delivery-outcome entry per active webhook -/

/-- C2: a successfully ingested inbound message produces exactly one
`direction=webhook` log entry per active webhook — carrying that
webhook's id, url, and a success-or-failed status — and none for the
inactive webhooks. -/
theorem sendToWebhooks_fanout_count (acc : String) (msg : MsgEvent) (chat : Chat)
    (m : Media) (webhooks : List Webhook) (deliver : Webhook → DeliveryResult)
    (hids : (webhooks.map (fun w => w.id)).Nodup) :
    ((handleIncomingMessage acc msg (.ok chat) (.ok m) (.ok ()) webhooks deliver).1.filter
        (fun e => e.direction == Direction.webhook))
      = (webhooks.filter (fun w => w.is_active)).map
          (fun w => webhookEntry acc w (deliver w))
    ∧ ((handleIncomingMessage acc msg (.ok chat) (.ok m) (.ok ()) webhooks deliver).1.filter
        (fun e => e.direction == Direction.webhook)).length
      = (webhooks.filter (fun w => w.is_active)).length
    ∧ (∀ e ∈ (handleIncomingMessage acc msg (.ok chat) (.ok m) (.ok ()) webhooks
          deliver).1,
        e.direction = Direction.webhook →
        ∃ w, w ∈ webhooks ∧ w.is_active = true ∧ e.webhook_id = some w.id
          ∧ e.webhook_url = some w.url
          ∧ (e.status = some MsgStatus.success ∨ e.status = some MsgStatus.failed))
    ∧ (∀ w ∈ webhooks, w.is_active = false →
        (handleIncomingMessage acc msg (.ok chat) (.ok m) (.ok ()) webhooks
            deliver).1.filter (fun e => e.webhook_id == some w.id) = []) := by
  rw [handleIncomingMessage_ok]
  have hhead :
      ((incomingEntry acc msg chat (if msg.hasMedia then some m else none)).direction
        == Direction.webhook) = false := by
    rw [incomingEntry_direction]
    decide
  have hfilter :
      (incomingEntry acc msg chat (if msg.hasMedia then some m else none)
          :: sendToWebhooks acc webhooks deliver).filter
          (fun e => e.direction == Direction.webhook)
        = sendToWebhooks acc webhooks deliver := by
    rw [List.filter_cons, hhead, if_neg (show ¬ (false = true) by decide),
      List.filter_eq_self.mpr]
    intro e he
    obtain ⟨w, _, _, rfl⟩ := mem_sendToWebhooks he
    rw [webhookEntry_direction]
    decide
  refine ⟨?_, ?_, ?_, ?_⟩
  · rw [hfilter, sendToWebhooks_eq_map]
  · rw [hfilter, sendToWebhooks_eq_map, List.length_map]
  · intro e he hdir
    rcases List.mem_cons.mp he with rfl | hmem
    · rw [incomingEntry_direction] at hdir
      cases hdir
    · obtain ⟨w, hw, hact, rfl⟩ := mem_sendToWebhooks hmem
      exact ⟨w, hw, hact, webhookEntry_id acc w (deliver w),
        webhookEntry_url acc w (deliver w), webhookEntry_status acc w (deliver w)⟩
  · intro w hw hinact
    have hheadid :
        ((incomingEntry acc msg chat (if msg.hasMedia then some m else none)).webhook_id
          == some w.id) = false := by
      rw [incomingEntry_webhook_id]
      rfl
    rw [List.filter_cons, hheadid, if_neg (show ¬ (false = true) by decide),
      List.filter_eq_nil_iff.mpr]
    intro e he
    obtain ⟨w', hw', hact', rfl⟩ := mem_sendToWebhooks he
    rw [webhookEntry_id]
    intro hbeq
    have hideq : w'.id = w.id := by simpa using hbeq
    have : w' = w := List.inj_on_of_nodup_map hids hw' hw hideq
    rw [this] at hact'
    rw [hinact] at hact'
    cases hact'

/-- C2 witness: one active and one inactive webhook — the run yields
exactly one webhook-direction entry. -/
theorem sendToWebhooks_fanout_count_witness :
    ((handleIncomingMessage "a" ⟨"m1", "s", "r", "hi", 5, "chat", false⟩
        (.ok ⟨"c1", false, ""⟩) (.ok ⟨"image/png", "x", none⟩) (.ok ())
        [⟨"w1", "a", "https://one.test", none, true⟩,
         ⟨"w2", "a", "https://two.test", none, false⟩]
        (fun _ => DeliveryResult.ok 200)).1.filter
        (fun e => e.direction == Direction.webhook)).length
      = ([(⟨"w1", "a", "https://one.test", none, true⟩ : Webhook),
          ⟨"w2", "a", "https://two.test", none, false⟩].filter
          (fun w => w.is_active)).length :=
  (sendToWebhooks_fanout_count "a" ⟨"m1", "s", "r", "hi", 5, "chat", false⟩
    ⟨"c1", false, ""⟩ ⟨"image/png", "x", none⟩
    [⟨"w1", "a", "https://one.test", none, true⟩,
     ⟨"w2", "a", "https://two.test", none, false⟩]
    (fun _ => DeliveryResult.ok 200) (by decide)).2.1

/-! ## C9: failure handling in the ingestion pipeline -/

/-- C9: if normalization (`getChat`, or `downloadMedia` when the
message has media) or persistence of the incoming entry fails, the
pipeline still attempts to write a single `status=failed` entry with
an error message, and webhook dispatch is not invoked; moreover
dispatch is invoked only when the incoming entry persisted
successfully. -/
theorem ingestion_failure_logging (acc : String) (msg : MsgEvent)
    (getChat : Except String Chat) (downloadMedia : Except String Media)
    (persistIncoming : Except String Unit) (webhooks : List Webhook)
    (deliver : Webhook → DeliveryResult) :
    (((∃ e, getChat = Except.error e)
        ∨ (msg.hasMedia = true ∧ ∃ e, downloadMedia = Except.error e)
        ∨ (∃ e, persistIncoming = Except.error e)) →
      (∃ e, (handleIncomingMessage acc msg getChat downloadMedia persistIncoming
          webhooks deliver).1 = [failedIncoming acc e])
      ∧ (handleIncomingMessage acc msg getChat downloadMedia persistIncoming
          webhooks deliver).2 = false)
    ∧ ((handleIncomingMessage acc msg getChat downloadMedia persistIncoming
          webhooks deliver).2 = true → persistIncoming = Except.ok ()) := by
  constructor
  · intro h
    cases getChat with
    | error e => exact ⟨⟨e, rfl⟩, rfl⟩
    | ok chat =>
      rcases h with ⟨e, he⟩ | ⟨hm, e, he⟩ | ⟨e, he⟩
      · cases he
      · simp only [handleIncomingMessage, hm, he, if_pos, Except.map]
        exact ⟨⟨e, rfl⟩, trivial⟩
      · cases hmm : (if msg.hasMedia then downloadMedia.map some
            else Except.ok (none : Option Media)) with
        | error e2 =>
          simp only [handleIncomingMessage, hmm]
          exact ⟨⟨e2, rfl⟩, trivial⟩
        | ok media =>
          simp only [handleIncomingMessage, hmm, he]
          exact ⟨⟨e, rfl⟩, trivial⟩
  · intro hdisp
    cases getChat with
    | error e => cases hdisp
    | ok chat =>
      cases hmm : (if msg.hasMedia then downloadMedia.map some
          else Except.ok (none : Option Media)) with
      | error e2 =>
        simp only [handleIncomingMessage, hmm] at hdisp
        cases hdisp
      | ok media =>
        cases persistIncoming with
        | error e =>
          simp only [handleIncomingMessage, hmm] at hdisp
          cases hdisp
        | ok u => cases u; rfl

/-- C9 witness: persistence of the incoming entry fails, so dispatch
is not invoked. -/
theorem ingestion_failure_logging_witness :
    (handleIncomingMessage "a" ⟨"m1", "s", "r", "hi", 5, "chat", false⟩
        (.ok ⟨"c1", false, ""⟩) (.ok ⟨"image/png", "x", none⟩)
        (.error "db down") [⟨"w1", "a", "https://one.test", none, true⟩]
        (fun _ => DeliveryResult.ok 200)).2 = false :=
  ((ingestion_failure_logging "a" ⟨"m1", "s", "r", "hi", 5, "chat", false⟩
    (.ok ⟨"c1", false, ""⟩) (.ok ⟨"image/png", "x", none⟩) (.error "db down")
    [⟨"w1", "a", "https://one.test", none, true⟩]
    (fun _ => DeliveryResult.ok 200)).1
    (Or.inr (Or.inr ⟨"db down", rfl⟩))).2

/-! ## C10: statistics aggregation and status-less incoming entries -/

lemma filter_disjoint_length_le {α : Type} (p q : α → Bool)
    (h : ∀ x, p x = true → q x = false) (l : List α) :
    (l.filter p).length + (l.filter q).length ≤ l.length := by
  induction l with
  | nil => simp
  | cons a l ih =>
    rw [List.filter_cons, List.filter_cons]
    by_cases hp : p a = true
    · rw [if_pos hp, if_neg (by rw [h a hp]; decide)]
      simp only [List.length_cons]
      omega
    · rw [if_neg hp]
      by_cases hq : q a = true
      · rw [if_pos hq]
        simp only [List.length_cons]
        omega
      · rw [if_neg hq]
        simp only [List.length_cons]
        omega

lemma filter_disjoint_length_lt {α : Type} (p q : α → Bool)
    (h : ∀ x, p x = true → q x = false) (l : List α) (e : α) (he : e ∈ l)
    (hp : p e = false) (hq : q e = false) :
    (l.filter p).length + (l.filter q).length < l.length := by
  induction l with
  | nil => cases he
  | cons a l ih =>
    rw [List.filter_cons, List.filter_cons]
    rcases List.mem_cons.mp he with rfl | hmem
    · rw [if_neg (by rw [hp]; decide), if_neg (by rw [hq]; decide)]
      have := filter_disjoint_length_le p q h l
      simp only [List.length_cons]
      omega
    · have hlt := ih hmem
      by_cases hpa : p a = true
      · rw [if_pos hpa, if_neg (by rw [h a hpa]; decide)]
        simp only [List.length_cons]
        omega
      · rw [if_neg hpa]
        by_cases hqa : q a = true
        · rw [if_pos hqa]
          simp only [List.length_cons]
          omega
        · rw [if_neg hqa]
          simp only [List.length_cons]
          omega

lemma status_success_failed_disjoint :
    ∀ e : MessageLogEntry, (e.status == some MsgStatus.success) = true →
      (e.status == some MsgStatus.failed) = false := by
  intro e hsucc
  have : e.status = some MsgStatus.success := by simpa using hsucc
  rw [this]
  decide

/-- C10: a successfully ingested incoming message is persisted with no
status field, so the statistics count it in `total` and `incoming` but
in neither `success` nor `failed`; consequently
`success + failed ≤ total` for every log list, strictly when such an
entry is present, and `total` also counts webhook-direction entries. -/
theorem getMessageStats_accounting (acc : String) (msg : MsgEvent) (chat : Chat)
    (media : Option Media) (logs : List MessageLogEntry) :
    (incomingEntry acc msg chat media).status = none
    ∧ (getMessageStats (incomingEntry acc msg chat media :: logs)).total
        = (getMessageStats logs).total + 1
    ∧ (getMessageStats (incomingEntry acc msg chat media :: logs)).incoming
        = (getMessageStats logs).incoming + 1
    ∧ (getMessageStats (incomingEntry acc msg chat media :: logs)).success
        = (getMessageStats logs).success
    ∧ (getMessageStats (incomingEntry acc msg chat media :: logs)).failed
        = (getMessageStats logs).failed
    ∧ (getMessageStats logs).success + (getMessageStats logs).failed
        ≤ (getMessageStats logs).total
    ∧ ((incomingEntry acc msg chat media) ∈ logs →
        (getMessageStats logs).success + (getMessageStats logs).failed
          < (getMessageStats logs).total)
    ∧ ∀ e : MessageLogEntry, e.direction = Direction.webhook →
        (getMessageStats (e :: logs)).total = (getMessageStats logs).total + 1 := by
  refine ⟨rfl, rfl, ?_, ?_, ?_, ?_, ?_, fun e _ => rfl⟩
  · show ((incomingEntry acc msg chat media :: logs).filter
        (fun m => m.direction == Direction.incoming)).length = _
    rw [List.filter_cons,
      if_pos (show ((incomingEntry acc msg chat media).direction
        == Direction.incoming) = true by rw [incomingEntry_direction]; decide)]
    rfl
  · show ((incomingEntry acc msg chat media :: logs).filter
        (fun m => m.status == some MsgStatus.success)).length = _
    rw [List.filter_cons,
      if_neg (show ¬ ((incomingEntry acc msg chat media).status
        == some MsgStatus.success) = true by rw [incomingEntry_status]; decide)]
    rfl
  · show ((incomingEntry acc msg chat media :: logs).filter
        (fun m => m.status == some MsgStatus.failed)).length = _
    rw [List.filter_cons,
      if_neg (show ¬ ((incomingEntry acc msg chat media).status
        == some MsgStatus.failed) = true by rw [incomingEntry_status]; decide)]
    rfl
  · exact filter_disjoint_length_le _ _ status_success_failed_disjoint logs
  · intro hmem
    exact filter_disjoint_length_lt _ _ status_success_failed_disjoint logs
      (incomingEntry acc msg chat media) hmem
      (by rw [show (incomingEntry acc msg chat media).status = none from rfl]; decide)
      (by rw [show (incomingEntry acc msg chat media).status = none from rfl]; decide)

/-- C10 witness: a log containing one successfully ingested incoming
entry has `success + failed < total`. -/
theorem getMessageStats_accounting_witness :
    (getMessageStats [incomingEntry "a" ⟨"m1", "s", "r", "hi", 5, "chat", false⟩
        ⟨"c1", false, ""⟩ none]).success
      + (getMessageStats [incomingEntry "a" ⟨"m1", "s", "r", "hi", 5, "chat", false⟩
        ⟨"c1", false, ""⟩ none]).failed
      < (getMessageStats [incomingEntry "a" ⟨"m1", "s", "r", "hi", 5, "chat", false⟩
        ⟨"c1", false, ""⟩ none]).total :=
  (getMessageStats_accounting "a" ⟨"m1", "s", "r", "hi", 5, "chat", false⟩
    ⟨"c1", false, ""⟩ none
    [incomingEntry "a" ⟨"m1", "s", "r", "hi", 5, "chat", false⟩
      ⟨"c1", false, ""⟩ none]).2.2.2.2.2.2.1 (by decide)

/-! ## Outbound send path (`sendMessage`) -/

/-- The in-memory state of a live WhatsApp client relevant to the send
path: whether `client.pupPage` exists and is not closed. -/
structure WAClient where
  pupPageOpen : Bool
deriving DecidableEq

/-- The manager's in-memory registries: `this.clients` and
`this.accountStatus` (status values are the strings the code stores:
"initializing", "qr_ready", "ready", "auth_failed", "disconnected"). -/
structure ManagerState where
  clients : String → Option WAClient
  accountStatus : String → Option String

/-- The errors `sendMessage` can throw before or at the transport
call. -/
inductive SendError
  | clientNotFound
  | notReady (status : Option String)
  | pageClosed
  | transport (e : String)
deriving DecidableEq

/-- The `error.message` carried by each thrown error. -/
def sendErrorText : SendError → String
  | .clientNotFound => "WhatsApp client not found for this account"
  | .notReady s =>
      "WhatsApp client is not ready. Current status: "
        ++ (match s with | some v => v | none => "undefined")
  | .pageClosed => "WhatsApp client page is closed or not available"
  | .transport e => e

/-- The result object of a successful `client.sendMessage` call. -/
structure TransportResult where
  message_id : String
  sender : String
  recipient : String
  timestamp : Nat
deriving DecidableEq

/-- The failed-outgoing log entry written by the `catch` branch of
`sendMessage`. -/
def failedOutgoing (accountId number message errMessage : String) : MessageLogEntry :=
  { account_id := accountId, direction := .outgoing,
    recipient := some number, message := some message,
    status := some .failed, error_message := some errMessage }

/-- The success log entry written after a transport send succeeds. -/
def outgoingSuccess (accountId message : String) (r : TransportResult) : MessageLogEntry :=
  { account_id := accountId, direction := .outgoing,
    message_id := some r.message_id, sender := some r.sender,
    recipient := some r.recipient, message := some message,
    timestamp := some r.timestamp, type := some "text",
    status := some .success }

/-- `sendMessage(accountId, number, message)`: look up the client,
check the in-memory status is `"ready"`, check the page is open,
format the number and invoke the transport (abstracted by the
`transportSend` oracle, keyed by the formatted address).  On success a
`status=success` outgoing entry is logged; on any thrown error the
`catch` branch logs a `status=failed` outgoing entry and rethrows.
Returns the outcome together with the log entries written. -/
def sendMessage (st : ManagerState) (accountId number message : String)
    (transportSend : String → Except String TransportResult) :
    Except SendError (String × Nat) × List MessageLogEntry :=
  match st.clients accountId with
  | none =>
    (.error .clientNotFound,
     [failedOutgoing accountId number message (sendErrorText .clientNotFound)])
  | some client =>
    if st.accountStatus accountId ≠ some "ready" then
      (.error (.notReady (st.accountStatus accountId)),
       [failedOutgoing accountId number message
          (sendErrorText (.notReady (st.accountStatus accountId)))])
    else if client.pupPageOpen = false then
      (.error .pageClosed,
       [failedOutgoing accountId number message (sendErrorText .pageClosed)])
    else
      match transportSend (formatPhoneNumber number) with
      | .error e =>
        (.error (.transport e), [failedOutgoing accountId number message e])
      | .ok r =>
        (.ok (r.message_id, r.timestamp), [outgoingSuccess accountId message r])

/-! ## C3: send with no live session -/

/-- C3 counterexample: calling `send` on an account with no live
session does fail with the session-not-found error, but — contrary to
the claim that no log entry is written — the `catch` branch writes a
failed outgoing MessageLogEntry. -/
theorem send_no_session_cex :
    (sendMessage ⟨fun _ => none, fun _ => none⟩ "acct-1" "9876543210" "hello"
        (fun _ => Except.error "unused")).1 = Except.error SendError.clientNotFound
    ∧ (sendMessage ⟨fun _ => none, fun _ => none⟩ "acct-1" "9876543210" "hello"
        (fun _ => Except.error "unused")).2
      = [failedOutgoing "acct-1" "9876543210" "hello"
          "WhatsApp client not found for this account"]
    ∧ (sendMessage ⟨fun _ => none, fun _ => none⟩ "acct-1" "9876543210" "hello"
        (fun _ => Except.error "unused")).2 ≠ [] := by
  refine ⟨rfl, rfl, ?_⟩
  decide

/-- C3 (amended): a `send` on an account with no live session fails
with SessionNotFound and writes exactly one MessageLogEntry: an
outgoing entry with `status=failed` and the error message; in
particular no `status=success` entry is written. -/
theorem send_no_session_spec (st : ManagerState) (accountId number message : String)
    (transportSend : String → Except String TransportResult)
    (h : st.clients accountId = none) :
    (sendMessage st accountId number message transportSend).1
      = Except.error SendError.clientNotFound
    ∧ (sendMessage st accountId number message transportSend).2
      = [failedOutgoing accountId number message
          "WhatsApp client not found for this account"]
    ∧ ∀ e ∈ (sendMessage st accountId number message transportSend).2,
        e.status = some MsgStatus.failed := by
  simp only [sendMessage, h]
  refine ⟨by trivial, by trivial, ?_⟩
  intro e he
  rcases List.mem_singleton.mp he with rfl
  rfl

/-- C3 witness for the amended claim. -/
theorem send_no_session_spec_witness :
    (sendMessage ⟨fun _ => none, fun _ => none⟩ "acct-2" "123" "hey"
        (fun _ => Except.error "unused")).1
      = Except.error SendError.clientNotFound :=
  (send_no_session_spec ⟨fun _ => none, fun _ => none⟩ "acct-2" "123" "hey"
    (fun _ => Except.error "unused") rfl).1

/-! ## C8: send while the session is not ready -/

/-- C8: a `send` on an account whose live in-memory status is not
`"ready"` fails with SessionNotReady, never consults the transport
(the outcome is the same for every transport oracle), and writes no
outgoing entry with `status=success`. -/
theorem send_not_ready (st : ManagerState) (accountId number message : String)
    (t t' : String → Except String TransportResult) (c : WAClient)
    (hc : st.clients accountId = some c)
    (hs : st.accountStatus accountId ≠ some "ready") :
    (sendMessage st accountId number message t).1
      = Except.error (SendError.notReady (st.accountStatus accountId))
    ∧ sendMessage st accountId number message t
        = sendMessage st accountId number message t'
    ∧ ∀ e ∈ (sendMessage st accountId number message t).2,
        e.status ≠ some MsgStatus.success := by
  simp only [sendMessage, hc, if_pos hs]
  refine ⟨by trivial, by trivial, ?_⟩
  intro e he
  rcases List.mem_singleton.mp he with rfl
  intro hcontra
  cases hcontra

/-- C8 witness: a client whose status is `"initializing"`. -/
theorem send_not_ready_witness :
    (sendMessage
        ⟨fun a => if a = "acc" then some ⟨true⟩ else none,
         fun a => if a = "acc" then some "initializing" else none⟩
        "acc" "9876543210" "hello" (fun _ => Except.error "t1")).1
      = Except.error (SendError.notReady (some "initializing")) :=
  (send_not_ready
    ⟨fun a => if a = "acc" then some ⟨true⟩ else none,
     fun a => if a = "acc" then some "initializing" else none⟩
    "acc" "9876543210" "hello" (fun _ => Except.error "t1")
    (fun _ => Except.error "t2") ⟨true⟩ (by simp) (by simp)).1

/-! ## Startup reconnection -/

/-- A persisted account record as stored in `whatsapp_accounts`
(status values are the strings the code stores). -/
structure Account where
  id : String
  name : String
  status : String
deriving DecidableEq

/-- The fields of a `db.updateAccount` call relevant to reconnection
(`updated_at` is not modelled; a field left out of the update object
is `none`). -/
structure AccountUpdate where
  status : Option String := none
  error_message : Option String := none
deriving DecidableEq

/-- `Map.prototype.set` on the in-memory status registry. -/
def mapSet (m : String → Option String) (k v : String) : String → Option String :=
  fun x => if x = k then some v else m x

/-- `reconnectAccount(account)`: build a fresh client, register it,
set the in-memory status to `"initializing"`, and initialize.  If
initialization fails (`initOk = false`), the catch branch persists an
update containing only `status: 'disconnected'` (and `updated_at`) —
no failure reason — and sets the in-memory status to
`"disconnected"`.  Returns the new in-memory status map and the list
of persisted updates, keyed by account id. -/
def reconnectAccount (account : Account) (initOk : Bool)
    (mem : String → Option String) :
    (String → Option String) × List (String × AccountUpdate) :=
  if initOk then
    (mapSet mem account.id "initializing", [])
  else
    (mapSet (mapSet mem account.id "initializing") account.id "disconnected",
     [(account.id, { status := some "disconnected" })])

/-- `initializeExistingAccounts()`: iterate over the persisted
accounts and reconnect exactly those whose status is `'ready'` or
`'qr_ready'`.  Returns the final in-memory status map, the persisted
updates, and the list of accounts for which reconnection was
attempted, in order. -/
def initExistingAccounts (accounts : List Account) (initOk : String → Bool)
    (mem : String → Option String) :
    (String → Option String) × List (String × AccountUpdate) × List Account :=
  match accounts with
  | [] => (mem, [], [])
  | a :: rest =>
    if a.status == "ready" || a.status == "qr_ready" then
      match reconnectAccount a (initOk a.id) mem with
      | (mem1, ups) =>
        match initExistingAccounts rest initOk mem1 with
        | (mem2, ups2, att) => (mem2, ups ++ ups2, a :: att)
    else
      initExistingAccounts rest initOk mem

/-! ## C6: startup reconnection policy -/

/-- C6: the accounts for which reconnection is attempted are exactly
the persisted accounts whose status is `'ready'` or `'qr_ready'`; a
successfully reconnected account's in-memory state re-enters
`"initializing"`; accounts persisted as `'auth_failed'` or
`'disconnected'` are never reconnected. -/
theorem initExistingAccounts_policy (accounts : List Account)
    (initOk : String → Bool) (mem : String → Option String) :
    (initExistingAccounts accounts initOk mem).2.2
      = accounts.filter (fun a => a.status == "ready" || a.status == "qr_ready")
    ∧ (∀ (a : Account) (m : String → Option String),
        (reconnectAccount a true m).1 a.id = some "initializing")
    ∧ (∀ a ∈ accounts, a.status = "auth_failed" ∨ a.status = "disconnected" →
        a ∉ (initExistingAccounts accounts initOk mem).2.2) := by
  have hatt : ∀ (l : List Account) (m : String → Option String),
      (initExistingAccounts l initOk m).2.2
        = l.filter (fun a => a.status == "ready" || a.status == "qr_ready") := by
    intro l
    induction l with
    | nil => intro m; rfl
    | cons a rest ih =>
      intro m
      by_cases h : (a.status == "ready" || a.status == "qr_ready") = true
      · simp only [initExistingAccounts, h, if_pos, List.filter_cons]
        rw [ih]
      · have h' : (a.status == "ready" || a.status == "qr_ready") = false := by
          cases hb : (a.status == "ready" || a.status == "qr_ready")
          · rfl
          · exact absurd hb h
        simp only [initExistingAccounts, h', List.filter_cons, Bool.false_eq_true,
          if_false]
        exact ih m
  refine ⟨hatt accounts mem, ?_, ?_⟩
  · intro a m
    simp [reconnectAccount, mapSet]
  · intro a ha hstat hmem
    rw [hatt accounts mem] at hmem
    have hp := (List.mem_filter.mp hmem).2
    rcases hstat with h | h <;> rw [h] at hp <;> cases hp

/-- C6 witness: one ready account, one auth-failed account — only the
ready one is attempted, and the auth-failed one is not attempted. -/
theorem initExistingAccounts_policy_witness :
    (⟨"a2", "Two", "auth_failed"⟩ : Account)
      ∉ (initExistingAccounts
          [⟨"a1", "One", "ready"⟩, ⟨"a2", "Two", "auth_failed"⟩]
          (fun _ => true) (fun _ => none)).2.2 :=
  (initExistingAccounts_policy
    [⟨"a1", "One", "ready"⟩, ⟨"a2", "Two", "auth_failed"⟩]
    (fun _ => true) (fun _ => none)).2.2
    ⟨"a2", "Two", "auth_failed"⟩ (by decide) (Or.inl rfl)

/-! ## C7: failed re-attachment marks the account disconnected -/

/-- C7 counterexample: when re-attachment fails, the persisted update
contains only `status: 'disconnected'` — its `error_message` field is
absent — so the claim that the failure reason is persisted alongside
the status is false. -/
theorem reconnect_failure_no_reason_cex :
    (reconnectAccount ⟨"a1", "One", "ready"⟩ false (fun _ => none)).2
      = [("a1", { status := some "disconnected", error_message := none })]
    ∧ ((reconnectAccount ⟨"a1", "One", "ready"⟩ false (fun _ => none)).2.map
        (fun u => u.2.error_message)) = [none] := by
  exact ⟨rfl, rfl⟩

/-- C7 (amended): when startup re-attachment fails, the persisted
record is updated to `status = 'disconnected'` — without the failure
reason, which is not included in the update — and the in-memory status
becomes `"disconnected"`. -/
theorem reconnect_failure_spec (account : Account) (mem : String → Option String) :
    ((reconnectAccount account false mem).2).map (fun u => u.1) = [account.id]
    ∧ ((reconnectAccount account false mem).2).map (fun u => u.2.status)
      = [some "disconnected"]
    ∧ ((reconnectAccount account false mem).2).map (fun u => u.2.error_message)
      = [(none : Option String)]
    ∧ (reconnectAccount account false mem).1 account.id = some "disconnected" := by
  refine ⟨rfl, rfl, rfl, ?_⟩
  simp [reconnectAccount, mapSet]

end WhatsAppAutomation
